import Mathlib

/-!
Shallow embedding of src/src/dbus_api.rs (Moses3301/network-manager).

The file models the dynamically typed D-Bus values handled by the
VariantTo conversion subsystem, the retrying method invoker
(call_with_args / call_with_args_retry / send_message_checked), the
property fetcher, and the response extractors (extract / extract_two).
External transport effects (the actual bus connection, sleeping, logging)
are modelled by passing the per-attempt transport outcome explicitly and
by counting the one-second sleeps the loop performs.
-/

namespace DBusApi

/-- Runtime type tags of the dbus values the module handles, mirroring
the dbus::arg::ArgType values the source inspects. A sequence carries
the Array tag. -/
inductive ArgType where
  | string
  | byte
  | uint32
  | int64
  | boolean
  | array
deriving DecidableEq, Repr

/-- A dynamically typed D-Bus value: a runtime type tag plus payload.
Scalars are the string, byte, 32-bit unsigned, 64-bit signed and
boolean-as-integer payloads the source consumes; `seq` is a sequence of
values (an iterable container). -/
inductive DBusValue where
  | str (s : String)
  | byte (n : Nat)
  | uint32 (n : Nat)
  | int64 (n : Int)
  | boolean (b : Bool)
  | seq (xs : List DBusValue)
deriving Repr

/-- RefArg::arg_type: the runtime tag of a value. -/
def arg_type : DBusValue → ArgType
  | .str _ => .string
  | .byte _ => .byte
  | .uint32 _ => .uint32
  | .int64 _ => .int64
  | .boolean _ => .boolean
  | .seq _ => .array

/-- RefArg::as_i64: numeric payloads read as a 64-bit signed integer;
a boolean reads as 0 or 1; strings and containers have none. -/
def as_i64 : DBusValue → Option Int
  | .str _ => none
  | .byte n => some n
  | .uint32 n => some n
  | .int64 n => some n
  | .boolean b => some (if b then 1 else 0)
  | .seq _ => none

/-- RefArg::as_str: only a string payload reads as a string. -/
def as_str : DBusValue → Option String
  | .str s => some s
  | _ => none

/-- RefArg::as_iter: only a container (sequence) is iterable; iterating
it yields its elements in order. -/
def as_iter : DBusValue → Option (List DBusValue)
  | .seq xs => some xs
  | _ => none

/-- u32::MAX as an i64, the upper bound of the range check in
VariantTo for u32. -/
def U32_MAX : Int := 4294967295

/-- The range check `num >= 0 && num <= u32::MAX as i64` used by the
u32 conversion. -/
def u32_in_range (num : Int) : Bool :=
  decide (0 ≤ num) && decide (num ≤ U32_MAX)

/-- The second attempt inside the UInt32 iterator branch of
VariantTo for u32: re-iterate the value, take the first element and
convert it with as_i64 under the range check. -/
def u32_second_try (value : DBusValue) : Option Nat :=
  match as_iter value with
  | some array =>
    match array.head? with
    | some first =>
      match as_i64 first with
      | some num => if u32_in_range num then some num.toNat else none
      | none => none
    | none => none
  | none => none

/-- VariantTo for u32 (impl VariantTo of u32 for DBusApi): if the value
is iterable, inspect its first element; a UInt32-tagged first element is
read with as_i64 and, failing the range check, retried through
u32_second_try; any other first element is read with as_i64 directly.
A non-iterable value is read with as_i64 under the same range check
(the UInt32 and Byte tags and the fallback arm of the source behave
identically). Out-of-range or non-numeric cases yield none. -/
def variant_to_u32 (value : DBusValue) : Option Nat :=
  match as_iter value with
  | some vec =>
    match vec.head? with
    | some first =>
      match arg_type first with
      | .uint32 =>
        match as_i64 first with
        | some num =>
          if u32_in_range num then some num.toNat else u32_second_try value
        | none => u32_second_try value
      | _ =>
        match as_i64 first with
        | some num => if u32_in_range num then some num.toNat else none
        | none => none
    | none => none
  | none =>
    match arg_type value with
    | .uint32 | .byte =>
      match as_i64 value with
      | some num => if u32_in_range num then some num.toNat else none
      | none => none
    | _ =>
      match as_i64 value with
      | some num => if u32_in_range num then some num.toNat else none
      | none => none

/-- VariantTo for bool: read the value with as_i64 and map v to
the test v == 0 (zero maps to true, nonzero to false). -/
def variant_to_bool (value : DBusValue) : Option Bool :=
  (as_i64 value).map (fun v => v == 0)

/-- VariantTo for String: read the value with as_str. -/
def variant_to_string (value : DBusValue) : Option String :=
  as_str value

/-- VariantTo for i64: read the value with as_i64. -/
def variant_to_i64 (value : DBusValue) : Option Int :=
  as_i64 value

/-- The element loop of VariantTo for a vector of strings: push each
element that reads as a string onto the result, fail the whole
conversion on the first element that does not. -/
def collect_strings : List String → List DBusValue → Option (List String)
  | result, [] => some result
  | result, element :: rest =>
    match as_str element with
    | some string => collect_strings (result ++ [string]) rest
    | none => none

/-- VariantTo for a vector of strings: the value must be iterable and
every element must read as a string; otherwise none. -/
def variant_to_string_list (value : DBusValue) : Option (List String) :=
  match as_iter value with
  | some list => collect_strings [] list
  | none => none

/-- The element loop of VariantTo for a vector of bytes: push each
element that reads as a number, truncated to one byte, fail on the
first element that does not. -/
def collect_bytes : List Nat → List DBusValue → Option (List Nat)
  | result, [] => some result
  | result, element :: rest =>
    match as_i64 element with
    | some value => collect_bytes (result ++ [(value % 256).toNat]) rest
    | none => none

/-- VariantTo for a vector of bytes: the value must be iterable and
every element must read as a number; each is truncated to one byte. -/
def variant_to_byte_list (value : DBusValue) : Option (List Nat) :=
  match as_iter value with
  | some list => collect_bytes [] list
  | none => none

/-- Errors of the module, mirroring error-chain usage in the source:
`dbusApi` is ErrorKind::DBusAPI with its message; `transport` is a dbus
method-call error converted with Error::from, carrying its symbolic name
and message; `propTransport` is the dbus error returned by a property
get, of which only the message is consulted; `chained` is chain_err
adding an ErrorKind::DBusAPI context layer over an inner error. -/
inductive ApiError where
  | dbusApi (message : String)
  | transport (name : Option String) (message : Option String)
  | propTransport (message : Option String)
  | chained (context : String) (inner : ApiError)
deriving DecidableEq, Repr

/-- RETRIES_ALLOWED, the fixed attempt budget of the retry loop. -/
def RETRIES_ALLOWED : Nat := 10

/-- DEFAULT_TIMEOUT, the default per-attempt timeout in seconds. -/
def DEFAULT_TIMEOUT : Nat := 15

/-- Outcome of one send_with_reply_and_block transport exchange: a reply
message (abstracted to a numeric identifier) or a dbus error with its
symbolic name and message. -/
inductive TransportOutcome where
  | reply (resp : Nat)
  | error (name : Option String) (message : Option String)
deriving DecidableEq, Repr

/-- Outcome of one attempt of create_and_send_message: either
Message::new_method_call fails with some details, or the message is
built and the transport exchange has the given outcome. -/
inductive AttemptOutcome where
  | constructError (details : String)
  | sent (t : TransportOutcome)
deriving DecidableEq, Repr

/-- The loop of send_message_checked over method_retry_error_names:
the error name matches the retry set when it is `some n` for a
configured name n. -/
def name_matches_retry (method_retry_error_names : List String)
    (name : Option String) : Bool :=
  match name with
  | some n => method_retry_error_names.contains n
  | none => false

/-- send_message_checked: a reply is returned as success; an error whose
symbolic name matches the retry set yields `none` (retry); any other
error is returned as a fatal transport error. -/
def send_message_checked (method_retry_error_names : List String) :
    TransportOutcome → Option (Except ApiError Nat)
  | .reply resp => some (.ok resp)
  | .error name message =>
    if name_matches_retry method_retry_error_names name then none
    else some (.error (.transport name message))

/-- create_and_send_message: a failure of Message::new_method_call is a
fatal DBusAPI error; otherwise the built message goes through
send_message_checked. -/
def create_and_send_message (method_retry_error_names : List String) :
    AttemptOutcome → Option (Except ApiError Nat)
  | .constructError details => some (.error (.dbusApi details))
  | .sent t => send_message_checked method_retry_error_names t

/-- The error raised by the retry loop when the retry counter reaches
RETRIES_ALLOWED. -/
def retries_exhausted_error : ApiError :=
  .dbusApi ("Method call failed after " ++ toString RETRIES_ALLOWED ++ " retries")

/-- What one invocation of the retry loop did: its result, the number of
transport attempts made, and the number of one-second sleeps performed
between attempts. -/
structure RetryTrace where
  result : Except ApiError Nat
  attempts : Nat
  sleeps : Nat
deriving Repr

/-- The loop of call_with_args_retry. `retries` is the counter of the
source; `outcome i` is what attempt number i (counting from 0) would
encounter; `fuel` is the number of loop iterations still reachable
before the counter check fires, maintained as RETRIES_ALLOWED - retries
by the entry point, so the fuel-exhausted base case is never reached
from it. A decisive attempt (some result) returns at once; otherwise
the counter is incremented, the loop bails with the exhausted error
when it reaches RETRIES_ALLOWED, and sleeps one second then retries
when it does not. -/
def call_loop (method_retry_error_names : List String)
    (outcome : Nat → AttemptOutcome) : Nat → Nat → RetryTrace
  | _retries, 0 =>
    { result := .error retries_exhausted_error, attempts := 0, sleeps := 0 }
  | retries, fuel + 1 =>
    match create_and_send_message method_retry_error_names (outcome retries) with
    | some result => { result := result, attempts := 1, sleeps := 0 }
    | none =>
      if retries + 1 = RETRIES_ALLOWED then
        { result := .error retries_exhausted_error, attempts := 1, sleeps := 0 }
      else
        let rest := call_loop method_retry_error_names outcome (retries + 1) fuel
        { result := rest.result, attempts := rest.attempts + 1,
          sleeps := rest.sleeps + 1 }

/-- call_with_args_retry: run the loop starting from a zero counter. -/
def call_with_args_retry (method_retry_error_names : List String)
    (outcome : Nat → AttemptOutcome) : RetryTrace :=
  call_loop method_retry_error_names outcome 0 RETRIES_ALLOWED

/-- The context message call_with_args wraps every failure with. -/
def call_context_message (path interface method : String) : String :=
  interface ++ "::" ++ method ++ " method call failed on " ++ path

/-- call_with_args: call_with_args_retry with every error re-wrapped by
chain_err with the "{interface}::{method} method call failed on {path}"
context message. -/
def call_with_args (method_retry_error_names : List String)
    (outcome : Nat → AttemptOutcome) (path interface method : String) :
    RetryTrace :=
  let t := call_with_args_retry method_retry_error_names outcome
  { t with
    result :=
      match t.result with
      | .ok resp => .ok resp
      | .error e =>
        .error (.chained (call_context_message path interface method) e) }

/-- Outcome of the property get on the connection path: the fetched
variant, or a dbus error of which the source reads the message. -/
inductive FetchOutcome where
  | ok (variant : DBusValue)
  | error (message : Option String)
deriving Repr

/-- The contextual message built by the property_error closure of
DBusApi::property. -/
def property_context_message (path interface name details : String) : String :=
  "Get " ++ interface ++ "::" ++ name ++ " property failed on " ++ path
    ++ ": " ++ details

/-- DBusApi::property, generic over the target type through its
VariantTo conversion function: on a fetched variant, convert it, and
fail with the wrapped "wrong property type" error when the conversion
yields none; on a fetch error, chain the contextual message (built from
the error message, or "no details" when it has none) over the
transport error. -/
def property {T : Type} (variant_to : DBusValue → Option T)
    (fetched : FetchOutcome) (path interface name : String) :
    Except ApiError T :=
  match fetched with
  | .ok variant =>
    match variant_to variant with
    | some data => .ok data
    | none =>
      .error (.dbusApi (property_context_message path interface name
        "wrong property type"))
  | .error message =>
    let details := match message with
      | some d => d
      | none => "no details"
    .error (.chained (property_context_message path interface name details)
      (.propTransport message))

/-- A received method-call response: its ordered argument list. -/
structure DMessage where
  args : List DBusValue
deriving Repr

/-- Message::get1, generic over the target type through its positional
reader: read the first argument, none when it is absent or its type
does not match. -/
def get1 {T : Type} (read_as : DBusValue → Option T) (m : DMessage) :
    Option T :=
  (m.args[0]?).bind read_as

/-- Message::get2: read the first and second arguments independently. -/
def get2 {T1 T2 : Type} (read_first : DBusValue → Option T1)
    (read_second : DBusValue → Option T2) (m : DMessage) :
    Option T1 × Option T2 :=
  ((m.args[0]?).bind read_first, (m.args[1]?).bind read_second)

/-- DBusApi::extract: get1, with absence turned into the "Wrong
response type" error. -/
def extract {T : Type} (read_as : DBusValue → Option T)
    (response : DMessage) : Except ApiError T :=
  match get1 read_as response with
  | some v => .ok v
  | none => .error (.dbusApi "Wrong response type")

/-- DBusApi::extract_two: get2, succeeding only when both positions
read, with the "Wrong response type" error otherwise. -/
def extract_two {T1 T2 : Type} (read_first : DBusValue → Option T1)
    (read_second : DBusValue → Option T2) (response : DMessage) :
    Except ApiError (T1 × T2) :=
  let pair := get2 read_first read_second response
  match pair.1 with
  | some first =>
    match pair.2 with
    | some second => .ok (first, second)
    | none => .error (.dbusApi "Wrong response type")
  | none => .error (.dbusApi "Wrong response type")

/-! Helper lemmas about the retry loop and the conversion subsystem. -/

theorem call_loop_attempts_le (names : List String) (outcome : Nat → AttemptOutcome) :
    ∀ fuel retries, (call_loop names outcome retries fuel).attempts ≤ fuel := by
  intro fuel
  induction fuel with
  | zero => intro retries; simp [call_loop]
  | succ f ih =>
    intro retries
    unfold call_loop
    cases h : create_and_send_message names (outcome retries) with
    | some result => simp
    | none =>
      by_cases hr : retries + 1 = RETRIES_ALLOWED
      · simp [hr]
      · simp only [if_neg hr]
        have := ih (retries + 1)
        simpa using Nat.succ_le_succ this

theorem call_loop_decisive (names : List String) (outcome : Nat → AttemptOutcome) :
    ∀ k fuel retries res, k < fuel → retries + fuel = RETRIES_ALLOWED →
    (∀ i, i < k → create_and_send_message names (outcome (retries + i)) = none) →
    create_and_send_message names (outcome (retries + k)) = some res →
    call_loop names outcome retries fuel =
      { result := res, attempts := k + 1, sleeps := k } := by
  intro k
  induction k with
  | zero =>
    intro fuel retries res hk hsum hfail hres
    obtain ⟨f, rfl⟩ : ∃ f, fuel = f + 1 := ⟨fuel - 1, by omega⟩
    unfold call_loop
    rw [show retries + 0 = retries from rfl] at hres
    rw [hres]
  | succ k ih =>
    intro fuel retries res hk hsum hfail hres
    obtain ⟨f, rfl⟩ : ∃ f, fuel = f + 1 := ⟨fuel - 1, by omega⟩
    unfold call_loop
    have h0 : create_and_send_message names (outcome retries) = none := by
      have := hfail 0 (Nat.succ_pos k)
      simpa using this
    rw [h0]
    have hne : ¬ (retries + 1 = RETRIES_ALLOWED) := by omega
    rw [if_neg hne]
    have hrest := ih f (retries + 1) res (by omega) (by omega)
      (fun i hi => by
        have := hfail (i + 1) (by omega)
        simpa [Nat.add_assoc, Nat.add_comm 1 i] using this)
      (by
        have heq : retries + 1 + k = retries + (k + 1) := by omega
        rw [heq]; exact hres)
    rw [hrest]

theorem call_loop_all_transient (names : List String) (outcome : Nat → AttemptOutcome) :
    ∀ fuel retries, 0 < fuel → retries + fuel = RETRIES_ALLOWED →
    (∀ i, i < fuel → create_and_send_message names (outcome (retries + i)) = none) →
    call_loop names outcome retries fuel =
      { result := .error retries_exhausted_error, attempts := fuel,
        sleeps := fuel - 1 } := by
  intro fuel
  induction fuel with
  | zero => intro retries h; omega
  | succ f ih =>
    intro retries _ hsum hfail
    unfold call_loop
    have h0 : create_and_send_message names (outcome retries) = none := by
      simpa using hfail 0 (Nat.succ_pos f)
    rw [h0]
    cases Nat.eq_zero_or_pos f with
    | inl hf0 =>
      subst hf0
      have : retries + 1 = RETRIES_ALLOWED := by omega
      rw [if_pos this]
    | inr hfpos =>
      have hne : ¬ (retries + 1 = RETRIES_ALLOWED) := by omega
      rw [if_neg hne]
      have hrest := ih (retries + 1) hfpos (by omega)
        (fun i hi => by
          have := hfail (i + 1) (by omega)
          simpa [Nat.add_assoc, Nat.add_comm 1 i] using this)
      rw [hrest]
      simp
      omega

theorem create_and_send_none_of_transient (names : List String) (o : AttemptOutcome)
    (h : ∃ nm msg, o = .sent (.error (some nm) msg) ∧ nm ∈ names) :
    create_and_send_message names o = none := by
  obtain ⟨nm, msg, rfl, hmem⟩ := h
  simp [create_and_send_message, send_message_checked, name_matches_retry, hmem]

theorem call_with_args_result (names : List String) (outcome : Nat → AttemptOutcome)
    (path interface method : String) :
    (call_with_args names outcome path interface method).result =
      match (call_with_args_retry names outcome).result with
      | .ok resp => .ok resp
      | .error e =>
        .error (.chained (call_context_message path interface method) e) := rfl

theorem property_fetch_ok {T : Type} (variant_to : DBusValue → Option T)
    (v : DBusValue) (path interface name : String) :
    property variant_to (.ok v) path interface name =
      match variant_to v with
      | some data => .ok data
      | none =>
        .error (.dbusApi (property_context_message path interface name
          "wrong property type")) := rfl

theorem variant_to_u32_not_iter (v : DBusValue) (num : Int)
    (hiter : as_iter v = none) (h64 : as_i64 v = some num) :
    variant_to_u32 v = if u32_in_range num then some num.toNat else none := by
  unfold variant_to_u32
  rw [hiter]
  cases harg : arg_type v <;> simp [h64]

theorem variant_to_u32_single (v : DBusValue) (num : Int)
    (h64 : as_i64 v = some num) :
    variant_to_u32 (DBusValue.seq [v]) =
      if u32_in_range num then some num.toNat else none := by
  unfold variant_to_u32
  cases harg : arg_type v <;>
    simp [as_iter, h64, u32_second_try, harg]

/-- A variant that encodes the integer n as a bare scalar: a byte, a
32-bit unsigned or a 64-bit signed payload carrying n, within the range
its tag can represent on the wire. -/
inductive encodes_scalar : DBusValue → Int → Prop where
  | byte (n : Nat) (h : n < 256) : encodes_scalar (DBusValue.byte n) n
  | uint32 (n : Nat) (h : n < 4294967296) : encodes_scalar (DBusValue.uint32 n) n
  | int64 (n : Int) : encodes_scalar (DBusValue.int64 n) n

theorem collect_strings_fails (xs : List DBusValue) :
    ∀ acc, (∃ e ∈ xs, as_str e = none) → collect_strings acc xs = none := by
  induction xs with
  | nil => intro acc h; simp at h
  | cons e rest ih =>
    intro acc h
    obtain ⟨x, hx, hxs⟩ := h
    rcases List.mem_cons.mp hx with hx | hx
    · subst hx
      simp [collect_strings, hxs]
    · cases he : as_str e with
      | none => simp [collect_strings, he]
      | some s =>
        simp only [collect_strings, he]
        exact ih (acc ++ [s]) ⟨x, hx, hxs⟩

theorem collect_strings_all (xs : List DBusValue) :
    ∀ acc, (∀ e ∈ xs, (as_str e).isSome) →
    collect_strings acc xs = some (acc ++ xs.filterMap as_str) := by
  induction xs with
  | nil => intro acc _; simp [collect_strings]
  | cons e rest ih =>
    intro acc h
    have he : (as_str e).isSome := h e (by simp)
    obtain ⟨s, hs⟩ := Option.isSome_iff_exists.mp he
    simp only [collect_strings, hs]
    rw [ih (acc ++ [s]) (fun x hx => h x (by simp [hx]))]
    simp [List.filterMap_cons, hs]

theorem filterMap_as_str_length (xs : List DBusValue)
    (h : ∀ e ∈ xs, (as_str e).isSome) :
    (xs.filterMap as_str).length = xs.length := by
  induction xs with
  | nil => simp
  | cons e rest ih =>
    have he : (as_str e).isSome := h e (by simp)
    obtain ⟨s, hs⟩ := Option.isSome_iff_exists.mp he
    simp [List.filterMap_cons, hs, ih (fun x hx => h x (by simp [hx]))]

/-! Claim theorems. -/

/-- C1: for every integer n in [0, 2^32-1], both the bare-scalar
encoding of n and the single-element-sequence encoding of n convert to
some n under the u32 conversion; for n outside that range, either
encoding shape converts to none. -/
theorem u32_conversion_scalar_and_singleton (v : DBusValue) (n : Int)
    (h : encodes_scalar v n) :
    variant_to_u32 v = (if 0 ≤ n ∧ n ≤ U32_MAX then some n.toNat else none) ∧
    variant_to_u32 (DBusValue.seq [v]) =
      (if 0 ≤ n ∧ n ≤ U32_MAX then some n.toNat else none) := by
  have key : ∀ m : Int, (if u32_in_range m then some m.toNat else none) =
      (if 0 ≤ m ∧ m ≤ U32_MAX then some m.toNat else none) := by
    intro m
    by_cases hm : 0 ≤ m ∧ m ≤ U32_MAX
    · rw [if_pos hm, if_pos]
      simp [u32_in_range]
      exact hm
    · rw [if_neg hm, if_neg]
      simp [u32_in_range]
      omega
  cases h with
  | byte n hn =>
    refine ⟨?_, ?_⟩
    · rw [variant_to_u32_not_iter (DBusValue.byte n) n rfl rfl]; exact key n
    · rw [variant_to_u32_single (DBusValue.byte n) n rfl]; exact key n
  | uint32 n hn =>
    refine ⟨?_, ?_⟩
    · rw [variant_to_u32_not_iter (DBusValue.uint32 n) n rfl rfl]; exact key n
    · rw [variant_to_u32_single (DBusValue.uint32 n) n rfl]; exact key n
  | int64 n =>
    refine ⟨?_, ?_⟩
    · rw [variant_to_u32_not_iter (DBusValue.int64 n) n rfl rfl]; exact key n
    · rw [variant_to_u32_single (DBusValue.int64 n) n rfl]; exact key n

/-- Witness for C1: the single-element sequence wrapping byte 42
converts to some 42, and an out-of-range bare scalar converts to
none. -/
theorem u32_conversion_scalar_and_singleton_witness :
    variant_to_u32 (DBusValue.seq [DBusValue.byte 42]) = some 42 ∧
    variant_to_u32 (DBusValue.int64 4294967296) = none := by
  constructor
  · have h := (u32_conversion_scalar_and_singleton (DBusValue.byte 42) 42
      (encodes_scalar.byte 42 (by decide))).2
    rw [h, if_pos (by decide)]
    rfl
  · have h := (u32_conversion_scalar_and_singleton (DBusValue.int64 4294967296)
      4294967296 (encodes_scalar.int64 4294967296)).1
    rw [h, if_neg (by decide)]

/-- C2: for every transient-error-name configuration and every sequence
of per-attempt outcomes, call_with_args makes at most RETRIES_ALLOWED
(10) attempts; and when the attempts before attempt k are all failures
with a transient name and attempt k gets a reply, the invoker returns
that reply with k + 1 attempts made and k one-second delays slept. -/
theorem invoker_bounded_attempts_first_success
    (method_retry_error_names : List String) (outcome : Nat → AttemptOutcome)
    (path interface method : String) :
    (call_with_args method_retry_error_names outcome path interface method).attempts
      ≤ RETRIES_ALLOWED ∧
    (∀ k resp, k < RETRIES_ALLOWED →
      (∀ i, i < k → ∃ nm msg, outcome i = .sent (.error (some nm) msg) ∧
        nm ∈ method_retry_error_names) →
      outcome k = .sent (.reply resp) →
      call_with_args method_retry_error_names outcome path interface method =
        { result := .ok resp, attempts := k + 1, sleeps := k }) := by
  constructor
  · exact call_loop_attempts_le _ _ RETRIES_ALLOWED 0
  · intro k resp hk htrans hsucc
    have hr : call_with_args_retry method_retry_error_names outcome =
        { result := .ok resp, attempts := k + 1, sleeps := k } := by
      unfold call_with_args_retry
      apply call_loop_decisive _ _ k RETRIES_ALLOWED 0 _ hk (by omega)
      · intro i hi
        exact create_and_send_none_of_transient _ _ (by simpa using htrans i hi)
      · show create_and_send_message _ (outcome (0 + k)) = some (.ok resp)
        rw [Nat.zero_add, hsucc]
        rfl
    unfold call_with_args
    rw [hr]

/-- Witness for C2: transient set Busy, attempts 1 through 9 fail with
Busy, attempt 10 replies 5: the overall result is success with 10
attempts and 9 delays. -/
theorem invoker_bounded_attempts_first_success_witness :
    call_with_args ["Busy"]
      (fun i => if i < 9 then .sent (.error (some "Busy") none)
                else .sent (.reply 5)) "/org" "I" "M" =
      { result := .ok 5, attempts := 10, sleeps := 9 } := by
  exact (invoker_bounded_attempts_first_success ["Busy"]
    (fun i => if i < 9 then .sent (.error (some "Busy") none)
              else .sent (.reply 5)) "/org" "I" "M").2
    9 5 (by decide)
    (fun i hi => ⟨"Busy", none, by simp [hi], by simp⟩)
    rfl

/-- C3: when every one of the RETRIES_ALLOWED attempts fails with an
error whose symbolic name is in the configured transient set, the
retrying invoker ends with exactly the retries-exhausted DBusAPI error
naming the attempt count 10, after 10 attempts and 9 one-second
sleeps. -/
theorem invoker_all_transient_retries_exhausted (names : List String)
    (outcome : Nat → AttemptOutcome)
    (h : ∀ i, i < RETRIES_ALLOWED → ∃ nm msg,
      outcome i = .sent (.error (some nm) msg) ∧ nm ∈ names) :
    call_with_args_retry names outcome =
      { result := .error (.dbusApi "Method call failed after 10 retries"),
        attempts := RETRIES_ALLOWED, sleeps := RETRIES_ALLOWED - 1 } := by
  unfold call_with_args_retry
  have key := call_loop_all_transient names outcome RETRIES_ALLOWED 0 (by decide)
    (by omega)
    (fun i hi => create_and_send_none_of_transient _ _ (by simpa using h i hi))
  rw [key]
  rfl

/-- Witness for C3: the transport fails with Busy on all attempts:
the result is the exhausted error naming 10, with 9 sleeps. -/
theorem invoker_all_transient_retries_exhausted_witness :
    call_with_args_retry ["Busy"] (fun _ => .sent (.error (some "Busy") none)) =
      { result := .error (.dbusApi "Method call failed after 10 retries"),
        attempts := 10, sleeps := 9 } := by
  exact invoker_all_transient_retries_exhausted ["Busy"] _
    (fun i _ => ⟨"Busy", none, rfl, by simp⟩)

/-- C4: when the attempts before attempt k are transient failures and
attempt k fails with a transport error whose symbolic name does not
match the transient set, the invoker surfaces that error at once:
k + 1 attempts in total and k sleeps, so a first-attempt fatal error
means exactly one attempt and zero sleeps. -/
theorem invoker_fatal_error_immediate (names : List String)
    (outcome : Nat → AttemptOutcome)
    (name : Option String) (msg : Option String) (k : Nat)
    (hk : k < RETRIES_ALLOWED)
    (hprev : ∀ i, i < k → ∃ nm m2,
      outcome i = .sent (.error (some nm) m2) ∧ nm ∈ names)
    (hfatal : outcome k = .sent (.error name msg))
    (hnot : name_matches_retry names name = false) :
    call_with_args_retry names outcome =
      { result := .error (.transport name msg), attempts := k + 1,
        sleeps := k } := by
  unfold call_with_args_retry
  apply call_loop_decisive names outcome k RETRIES_ALLOWED 0 _ hk (by omega)
  · intro i hi
    exact create_and_send_none_of_transient _ _ (by simpa using hprev i hi)
  · rw [Nat.zero_add, hfatal]
    simp [create_and_send_message, send_message_checked, hnot]

/-- Witness for C4: a first-attempt PermissionDenied failure against
transient set Busy surfaces at once: one attempt, zero sleeps. -/
theorem invoker_fatal_error_immediate_witness :
    call_with_args_retry ["Busy"]
      (fun _ => .sent (.error (some "PermissionDenied") none)) =
      { result := .error (.transport (some "PermissionDenied") none),
        attempts := 1, sleeps := 0 } := by
  exact invoker_fatal_error_immediate ["Busy"] _ (some "PermissionDenied")
    none 0 (by decide) (fun i hi => absurd hi (by omega)) rfl (by decide)

/-- C5: every terminal failure of call_with_args is wrapped with the
contextual message "{interface}::{method} method call failed on
{path}" chained over the inner failure of the retry loop. -/
theorem invoker_failure_context_wrapped (names : List String)
    (outcome : Nat → AttemptOutcome)
    (path interface method : String) (e : ApiError)
    (h : (call_with_args names outcome path interface method).result =
      .error e) :
    ∃ inner,
      e = .chained (interface ++ "::" ++ method ++ " method call failed on "
        ++ path) inner ∧
      (call_with_args_retry names outcome).result = .error inner := by
  rw [call_with_args_result] at h
  cases hr : (call_with_args_retry names outcome).result with
  | ok resp => rw [hr] at h; simp at h
  | error inner =>
    rw [hr] at h
    have key : ApiError.chained (call_context_message path interface method)
        inner = e := by
      simpa using h
    exact ⟨inner, key.symm, rfl⟩

/-- Witness for C5: a fatal transport failure on the first attempt is
surfaced wrapped with the I::M method call failed on P context. -/
theorem invoker_failure_context_wrapped_witness :
    ∃ inner,
      (ApiError.chained "I::M method call failed on P"
        (.transport (some "X") none)) =
        .chained ("I" ++ "::" ++ "M" ++ " method call failed on " ++ "P")
          inner ∧
      (call_with_args_retry [] (fun _ => .sent (.error (some "X") none))).result =
        .error inner :=
  invoker_failure_context_wrapped [] (fun _ => .sent (.error (some "X") none))
    "P" "I" "M"
    (.chained "I::M method call failed on P" (.transport (some "X") none)) rfl

/-- C6: the boolean conversion of a variant carrying the numeric value
num yields some true when num is zero and some false when num is
nonzero. -/
theorem bool_conversion_zero_true_nonzero_false (v : DBusValue) (num : Int)
    (h : as_i64 v = some num) :
    (num = 0 → variant_to_bool v = some true) ∧
    (num ≠ 0 → variant_to_bool v = some false) := by
  refine ⟨fun h0 => ?_, fun h0 => ?_⟩ <;> simp [variant_to_bool, h, h0]

/-- Witness for C6: numeric 0 converts to some true and numeric 5 to
some false. -/
theorem bool_conversion_zero_true_nonzero_false_witness :
    variant_to_bool (DBusValue.int64 0) = some true ∧
    variant_to_bool (DBusValue.int64 5) = some false := by
  constructor
  · exact (bool_conversion_zero_true_nonzero_false (DBusValue.int64 0) 0
      rfl).1 rfl
  · exact (bool_conversion_zero_true_nonzero_false (DBusValue.int64 5) 5
      rfl).2 (by decide)

/-- C7: the sequence-of-strings conversion is all-or-nothing: for an
iterable variant, when some element is not a string the conversion
yields none, and when every element is a string it yields the full
list, in order and of the same length. -/
theorem string_list_conversion_all_or_nothing (v : DBusValue)
    (xs : List DBusValue) (h : as_iter v = some xs) :
    ((∃ e ∈ xs, as_str e = none) → variant_to_string_list v = none) ∧
    ((∀ e ∈ xs, (as_str e).isSome) →
      variant_to_string_list v = some (xs.filterMap as_str) ∧
      (xs.filterMap as_str).length = xs.length) := by
  constructor
  · intro hex
    unfold variant_to_string_list
    rw [h]
    exact collect_strings_fails xs [] hex
  · intro hall
    refine ⟨?_, filterMap_as_str_length xs hall⟩
    unfold variant_to_string_list
    rw [h]
    simpa using collect_strings_all xs [] hall

/-- Witness for C7: a sequence with a non-string element converts to
none, and an all-string sequence converts to the full list. -/
theorem string_list_conversion_all_or_nothing_witness :
    variant_to_string_list
      (DBusValue.seq [DBusValue.str "a", DBusValue.int64 1]) = none ∧
    variant_to_string_list
      (DBusValue.seq [DBusValue.str "a", DBusValue.str "b"]) =
      some ["a", "b"] := by
  constructor
  · exact (string_list_conversion_all_or_nothing
      (DBusValue.seq [DBusValue.str "a", DBusValue.int64 1])
      [DBusValue.str "a", DBusValue.int64 1] rfl).1
      ⟨DBusValue.int64 1, by simp, rfl⟩
  · have h := (string_list_conversion_all_or_nothing
      (DBusValue.seq [DBusValue.str "a", DBusValue.str "b"]) _ rfl).2
      (by decide)
    simpa using h.1

/-- C8: for a fetched variant, the property fetcher fails with the
wrong property type error under the Get {interface}::{name} property
failed on {path} context exactly when the conversion yields none, and
returns the converted data otherwise; for a failed fetch it fails with
the same context over the transport error details. -/
theorem property_fetch_error_contract {T : Type}
    (variant_to : DBusValue → Option T)
    (fetched : FetchOutcome) (path interface name : String) :
    (∀ v, fetched = .ok v →
      ((property variant_to fetched path interface name =
          .error (.dbusApi ("Get " ++ interface ++ "::" ++ name ++
            " property failed on " ++ path ++ ": " ++ "wrong property type"))) ↔
        variant_to v = none) ∧
      (∀ data, variant_to v = some data →
        property variant_to fetched path interface name = .ok data)) ∧
    (∀ msg, fetched = .error msg →
      property variant_to fetched path interface name =
        .error (.chained ("Get " ++ interface ++ "::" ++ name ++
            " property failed on " ++ path ++ ": " ++
            (match msg with | some d => d | none => "no details"))
          (.propTransport msg))) := by
  constructor
  · intro v hv
    subst hv
    constructor
    · rw [property_fetch_ok]
      cases hc : variant_to v with
      | some data => simp [property_context_message]
      | none => simp [property_context_message]
    · intro data hd
      rw [property_fetch_ok, hd]
  · intro msg hm
    subst hm
    rfl

/-- Witness for C8: a string variant requested as bool fails with the
wrapped wrong property type error, and a failed fetch is wrapped over
its transport details. -/
theorem property_fetch_error_contract_witness :
    (property variant_to_bool (.ok (.str "x")) "P" "I" "N" =
      .error (.dbusApi ("Get " ++ "I" ++ "::" ++ "N" ++ " property failed on "
        ++ "P" ++ ": " ++ "wrong property type"))) ∧
    (property variant_to_bool (.error (some "timeout")) "P" "I" "N" =
      .error (.chained ("Get " ++ "I" ++ "::" ++ "N" ++ " property failed on "
          ++ "P" ++ ": " ++ "timeout")
        (.propTransport (some "timeout")))) := by
  constructor
  · exact ((property_fetch_error_contract variant_to_bool (.ok (.str "x"))
      "P" "I" "N").1 (.str "x") rfl).1.mpr rfl
  · exact (property_fetch_error_contract variant_to_bool
      (.error (some "timeout")) "P" "I" "N").2 (some "timeout") rfl

/-- C9: extract returns the first positional field when it is present
and type-matching and fails with the Wrong response type error exactly
when that read yields nothing (position absent or type mismatch);
extract_two does the same for the first two positions together. -/
theorem response_extractor_contract {T1 T2 : Type}
    (read_first : DBusValue → Option T1)
    (read_second : DBusValue → Option T2) (response : DMessage) :
    (∀ v, get1 read_first response = some v →
      extract read_first response = .ok v) ∧
    (get1 read_first response = none →
      extract read_first response = .error (.dbusApi "Wrong response type")) ∧
    (get1 read_first response = none ↔
      response.args[0]? = none ∨
        ∃ f, response.args[0]? = some f ∧ read_first f = none) ∧
    (∀ a b, (response.args[0]?).bind read_first = some a →
      (response.args[1]?).bind read_second = some b →
      extract_two read_first read_second response = .ok (a, b)) ∧
    (((response.args[0]?).bind read_first = none ∨
        (response.args[1]?).bind read_second = none) →
      extract_two read_first read_second response =
        .error (.dbusApi "Wrong response type")) := by
  refine ⟨?_, ?_, ?_, ?_, ?_⟩
  · intro v hv; simp [extract, hv]
  · intro hv; simp [extract, hv]
  · unfold get1
    cases h0 : response.args[0]? with
    | none => simp
    | some f => simp [Option.bind]
  · intro a b ha hb
    simp [extract_two, get2, ha, hb]
  · intro hor
    rcases hor with hn | hn <;> simp [extract_two, get2, hn]
    cases hx : (response.args[0]?).bind read_first <;> simp

/-- Witness for C9: a response with a string then an int: extract reads
the string, extract_two reads the pair, and asking an int from a
string-only response fails with the Wrong response type error. -/
theorem response_extractor_contract_witness :
    extract variant_to_string
      ⟨[DBusValue.str "a", DBusValue.int64 3]⟩ = .ok "a" ∧
    extract_two variant_to_string variant_to_i64
      ⟨[DBusValue.str "a", DBusValue.int64 3]⟩ = .ok ("a", 3) ∧
    extract variant_to_i64 ⟨[DBusValue.str "a"]⟩ =
      .error (.dbusApi "Wrong response type") := by
  refine ⟨?_, ?_, ?_⟩
  · exact (response_extractor_contract variant_to_string variant_to_i64
      ⟨[DBusValue.str "a", DBusValue.int64 3]⟩).1 "a" rfl
  · exact (response_extractor_contract variant_to_string variant_to_i64
      ⟨[DBusValue.str "a", DBusValue.int64 3]⟩).2.2.2.1 "a" 3 rfl rfl
  · exact (response_extractor_contract variant_to_i64 variant_to_i64
      ⟨[DBusValue.str "a"]⟩).2.1 rfl

/-- C10: the u32 conversion of an iterable variant depends only on the
first element: the empty sequence converts to none, and a sequence
with more elements converts exactly as the singleton of its first
element does. -/
theorem u32_conversion_first_element_only (x : DBusValue)
    (xs : List DBusValue) :
    variant_to_u32 (DBusValue.seq []) = none ∧
    variant_to_u32 (DBusValue.seq (x :: xs)) =
      variant_to_u32 (DBusValue.seq [x]) :=
  ⟨rfl, rfl⟩

/-- Witness for C10: a two-element sequence starting with uint32 7 and
ending with a non-numeric string converts as the singleton of 7
does: to some 7. -/
theorem u32_conversion_first_element_only_witness :
    variant_to_u32 (DBusValue.seq [DBusValue.uint32 7, DBusValue.str "x"]) =
      variant_to_u32 (DBusValue.seq [DBusValue.uint32 7]) ∧
    variant_to_u32 (DBusValue.seq [DBusValue.uint32 7]) = some 7 := by
  constructor
  · exact (u32_conversion_first_element_only (DBusValue.uint32 7)
      [DBusValue.str "x"]).2
  · rfl

end DBusApi
